import Mathlib

/-!
Verification of the klab instrument-control core (tii-qfoundry/klab).

This file gives a shallow embedding, in Lean 4, of the SCPI command-construction
and dispatch layer of the repository:

* `klayout_package/python/klab/instrument.py` — the original `SCPICommandProxy`
  (uppercased colon-joined segments, indexed access, the force-query marker `q`,
  argument quoting) and `SCPIInstrument`; embedded in namespace `InstrumentPy`.
* `klayout_package/python/klab/instruments/scpi_instrument.py` — the reduced
  `SCPICommandProxy` used by `ScpiInstrument` (a plain string prefix, no
  uppercasing, no marker handling), the YAML-driven declarative method executor
  `_execute_yaml_method`, the nested-call parser `_safe_nested_call`, and the
  construction-time validation `_validate_yaml_methods`; embedded in namespace
  `ScpiInstrumentPy`.
* `klayout_package/python/klab/instruments/klab_instrument.py` — the
  `VisaBackend` transport and the `KlabInstrument.write` / `read` / `query`
  wrappers; embedded in namespace `KlabInstrumentPy`.
* `klayout_package/python/klab/instruments/yaml_utils.py` — `load_yaml_spec`;
  embedded in namespace `YamlUtils`.

Python strings are embedded as Lean `String` (processed on their character
lists to keep every definition kernel-computable), Python ints as `Int`, and
Python's `float(...)` parse of a textual value as an exact rational (`Rat`).
I/O is abstracted by oracles: the filesystem as a function from path to parsed
content, the instrument link as a function from command to response.
-/

deriving instance DecidableEq for Except

namespace Klab

/-- Python str.strip() on a character list: drop whitespace from both ends
(the repository only ever strips ASCII whitespace). -/
def pyStripWs (l : List Char) : List Char :=
  ((l.dropWhile Char.isWhitespace).reverse.dropWhile Char.isWhitespace).reverse

/-- Python str.strip() at the String level. -/
def pyStripStr (s : String) : String :=
  String.mk (pyStripWs s.toList)

/-- Python sep.join(list) for a list of strings. -/
def pyJoin (sep : String) : List String → String
  | [] => ""
  | [s] => s
  | s :: rest => s ++ sep ++ pyJoin sep rest

/-- Python str.upper(), ASCII case mapping (the attribute names the proxies
uppercase are ASCII identifiers). -/
def pyUpper (s : String) : String :=
  String.mk (s.toList.map Char.toUpper)

/-- Python str.split(sep)[i]-style split on a single character, keeping empty
fields, as Python's split with an explicit separator does. -/
def splitOnChar (c : Char) : List Char → List (List Char)
  | [] => [[]]
  | x :: xs =>
    let r := splitOnChar c xs
    if x = c then [] :: r
    else
      match r with
      | [] => [[x]]
      | h :: t => (x :: h) :: t

/-- Python pair.split(sep, 1): break a character list at the first occurrence
of a character; `none` when the character does not occur. -/
def splitFirst (c : Char) : List Char → Option (List Char × List Char)
  | [] => none
  | x :: xs =>
    if x = c then some ([], xs)
    else
      match splitFirst c xs with
      | some (a, b) => some (x :: a, b)
      | none => none

/-- The value of a string of decimal digits. -/
def digitsToNat (l : List Char) : Nat :=
  l.foldl (fun a c => 10 * a + (c.toNat - 48)) 0

/-- An argument passed to a command-proxy invocation. `marker` is the
module-level force-query marker object `q` (an identity-checked singleton
`_QueryMarker()`); `noQuote` is a `NoQuote`-wrapped string; `str` a plain
Python string; `num` a Python int (the repository's numeric proxy arguments in
the claims are integers, rendered by Python's default str()). -/
inductive Arg where
  | marker
  | noQuote (s : String)
  | str (s : String)
  | num (n : Int)
deriving DecidableEq

/-- The rendering str(q) of the `_QueryMarker` singleton. CPython prints a
module-qualified class name plus an id-dependent address; no theorem in this
file depends on this text, only on which dispatch path a marker argument
takes. -/
def markerPyStr : String := "<_QueryMarker object>"

/-- The dispatch a proxy invocation performs against its instrument: a query
(routed through `KlabInstrument.ask` in instrument.py, through
`KlabInstrument.query`/`ScpiInstrument.query` in scpi_instrument.py) or a
write. -/
inductive Action where
  | query (cmd : String)
  | write (cmd : String)
deriving DecidableEq

/-- Whether an action is routed through the instrument's query operation. -/
def Action.isQuery : Action → Bool
  | .query _ => true
  | .write _ => false

namespace InstrumentPy

/-- `SCPICommandProxy` of klayout_package/python/klab/instrument.py: holds the
owning instrument (left implicit: the proxy's output is the `Action` it
dispatches) and the accumulated `_command_parts`. -/
structure SCPICommandProxy where
  command_parts : List String
deriving DecidableEq

/-- `SCPICommandProxy.__getattr__` (instrument.py line 103): append
`name.upper()` as a new command part, returning a fresh proxy. -/
def SCPICommandProxy.getattr (p : SCPICommandProxy) (name : String) :
    SCPICommandProxy :=
  ⟨p.command_parts ++ [pyUpper name]⟩

/-- `SCPICommandProxy.__getitem__` (instrument.py lines 108-114): append
str(key) to the last command part; `ValueError` on an empty path. The
repository indexes proxies with Python ints. -/
def SCPICommandProxy.getitem (p : SCPICommandProxy) (key : Int) :
    Except String SCPICommandProxy :=
  match p.command_parts with
  | [] => .error "Cannot use item access on an empty command path."
  | x :: xs =>
    .ok ⟨(x :: xs).dropLast ++ [(x :: xs).getLast (List.cons_ne_nil x xs) ++ toString key]⟩

/-- Argument formatting inside `SCPICommandProxy.__call__` (instrument.py
lines 132-139 and 146-153): `NoQuote` values render bare, plain strings are
wrapped in single quotes, anything else renders via str(). -/
def formatArg : Arg → String
  | .noQuote s => s
  | .str s => "\x27" ++ s ++ "\x27"
  | .num n => toString n
  | .marker => markerPyStr

/-- `SCPICommandProxy.__call__` (instrument.py lines 116-161): a marker-first
call queries `PATH?` with the remaining arguments comma-joined after one
space; any other non-empty argument list writes `PATH args`; an empty call
queries `PATH?`. -/
def SCPICommandProxy.call (p : SCPICommandProxy) (args : List Arg) : Action :=
  let command_str := pyJoin ":" p.command_parts
  match args with
  | Arg.marker :: query_args =>
    let cs := command_str ++ "?"
    let cs :=
      if query_args.isEmpty then cs
      else cs ++ " " ++ pyJoin "," (query_args.map formatArg)
    Action.query cs
  | [] => Action.query (command_str ++ "?")
  | _ => Action.write (command_str ++ " " ++ pyJoin "," (args.map formatArg))

/-- The fallback branch of `SCPIInstrument.__getattr__` (instrument.py line
202): seed a proxy with the single uppercased name. -/
def SCPIInstrument.dynamicAttr (name : String) : SCPICommandProxy :=
  ⟨[pyUpper name]⟩

/-- An attribute chain of length N ≥ 1 on an `SCPIInstrument`: the first name
resolves through `SCPIInstrument.__getattr__`, the rest through
`SCPICommandProxy.__getattr__`. -/
def chainProxy (first : String) (rest : List String) : SCPICommandProxy :=
  rest.foldl SCPICommandProxy.getattr (SCPIInstrument.dynamicAttr first)

end InstrumentPy

namespace ScpiInstrumentPy

/-- `SCPICommandProxy` of klab/instruments/scpi_instrument.py (lines 44-82):
the accumulated command is a single string `_prefix`, not a segment list. -/
structure SCPICommandProxy where
  pfx : String
deriving DecidableEq

/-- `SCPICommandProxy.__getattr__` (scpi_instrument.py lines 62-65): extend
the prefix with `:name` — the name is NOT uppercased. -/
def SCPICommandProxy.getattr (p : SCPICommandProxy) (name : String) :
    SCPICommandProxy :=
  ⟨if p.pfx = "" then name else p.pfx ++ ":" ++ name⟩

/-- str(arg) as applied by this proxy's `__call__` (line 73): every argument,
plain strings included, renders via its default str() — no quoting. -/
def scpiPyStr : Arg → String
  | .noQuote s => s
  | .str s => s
  | .num n => toString n
  | .marker => markerPyStr

/-- `SCPICommandProxy.__call__` (scpi_instrument.py lines 67-82): with
arguments, comma-space-join their str() forms and write; with none, append
a question mark and query. There is no force-query-marker inspection. -/
def SCPICommandProxy.call (p : SCPICommandProxy) (args : List Arg) : Action :=
  let command := p.pfx
  let command :=
    if args.isEmpty then command
    else command ++ " " ++ pyJoin ", " (args.map scpiPyStr)
  if args.isEmpty then Action.query (command ++ "?")
  else Action.write command

/-- The fallback branch of `ScpiInstrument.__getattr__` (scpi_instrument.py
line 288): seed a proxy with the name as given (no uppercasing). -/
def ScpiInstrument.dynamicAttr (name : String) : SCPICommandProxy :=
  ⟨name⟩

/-- An attribute chain of length N ≥ 1 on a `ScpiInstrument`. -/
def chainProxy (first : String) (rest : List String) : SCPICommandProxy :=
  rest.foldl SCPICommandProxy.getattr (ScpiInstrument.dynamicAttr first)

/-- A Python value appearing as a call-time keyword argument of a declarative
(YAML) method, or produced by `_safe_nested_call`'s value parsing. Python
floats are carried as exact rationals: `float(...)` applied to the short
decimal literals the repository's templates use is exact, and the
integral-collapse test `value.is_integer()` agrees with `den = 1` on them
(binary rounding of long literals, inf and nan are outside the embedding). -/
inductive Value where
  | int (n : Int)
  | float (q : Rat)
  | str (s : String)
deriving DecidableEq

/-- Rendering of a value substituted into a command template by str.format.
Ints and strings render as in Python. A float renders via repr(float)
(shortest round-trip decimal) in CPython; the repository's templates only
substitute ints and strings, and no theorem in this file depends on the
float rendering, so it is embedded as the exact num/den form. -/
def Value.pyStr : Value → String
  | .int n => toString n
  | .float q => toString q.num ++ "/" ++ toString q.den
  | .str s => s

/-- Errors raised inside the declarative method executor, carried
structurally (Python raises KeyError / ValueError / AttributeError with
message text built from these data). -/
inductive ExecError where
  | keyError (key : String)
  | valueError (msg : String)
  | attributeError (name : String)
deriving DecidableEq

/-- Scanner state of the str.format embedding: plain text, just after an
opening brace, just after a closing brace, or inside a replacement field
collecting the (reversed) field name. -/
inductive FmtMode where
  | text
  | afterLb
  | afterRb
  | key (acc : List Char)

/-- Python str.format(**kwargs), restricted to the named identifier fields
the repository's YAML templates use: a doubled brace escapes to a literal
brace, an unmatched single brace is a ValueError, and a field name absent
from the keyword arguments is a KeyError raised before any output is
produced. Positional fields, attribute or index access inside a field,
conversions and format specs are outside the embedding. -/
def pyFormatGo (kw : List (String × Value)) : FmtMode → List Char → Except ExecError (List Char)
  | .text, [] => .ok []
  | .text, c :: rest =>
    if c = '\x7b' then pyFormatGo kw .afterLb rest
    else if c = '\x7d' then pyFormatGo kw .afterRb rest
    else (pyFormatGo kw .text rest).map (fun t => c :: t)
  | .afterLb, [] => .error (.valueError "Single brace encountered in format string")
  | .afterLb, c :: rest =>
    if c = '\x7b' then (pyFormatGo kw .text rest).map (fun t => '\x7b' :: t)
    else if c = '\x7d' then
      match kw.lookup "" with
      | some v => (pyFormatGo kw .text rest).map (fun t => (Value.pyStr v).toList ++ t)
      | none => .error (.keyError "")
    else pyFormatGo kw (.key [c]) rest
  | .afterRb, [] => .error (.valueError "Single brace encountered in format string")
  | .afterRb, c :: rest =>
    if c = '\x7d' then (pyFormatGo kw .text rest).map (fun t => '\x7d' :: t)
    else .error (.valueError "Single brace encountered in format string")
  | .key _, [] => .error (.valueError "Single brace encountered in format string")
  | .key acc, c :: rest =>
    if c = '\x7d' then
      let k := String.mk acc.reverse
      match kw.lookup k with
      | some v => (pyFormatGo kw .text rest).map (fun t => (Value.pyStr v).toList ++ t)
      | none => .error (.keyError k)
    else pyFormatGo kw (.key (c :: acc)) rest

/-- `cmd_template.format(**kwargs)` (scpi_instrument.py line 202). -/
def pyFormat (tpl : String) (kw : List (String × Value)) : Except ExecError (List Char) :=
  pyFormatGo kw .text tpl.toList

/-- One entry of a YAML command sequence: either a bare template string, or a
mapping read with `cmd_item.get` for its optional `type` and `cmd` keys
(scpi_instrument.py lines 188-199; any other YAML node kind raises ValueError
and is outside the embedding). -/
inductive CmdItem where
  | str (tpl : String)
  | dict (ty : Option String) (cmd : Option String)
deriving DecidableEq

/-- The query/write classification of a bare template string
(scpi_instrument.py line 192): query when the stripped template ends in a
question mark, or when its first space-delimited token does. -/
def inferKindStr (tpl : String) : String :=
  let cs := tpl.toList
  let endsQ := fun l : List Char =>
    match l.getLast? with
    | some c => c = '?'
    | none => false
  if endsQ (pyStripWs cs) || endsQ (cs.takeWhile (fun c => c ≠ ' ')) then "query"
  else "write"

/-- The dispatch a single declarative step performs: a transport write, a
transport query, or a recursive invocation of another method on the same
instrument (scpi_instrument.py lines 204-207 and 213-247). -/
inductive Effect where
  | write (cmd : String)
  | query (cmd : String)
  | nested (method : String) (kwargs : List (String × Value))
deriving DecidableEq

/-- Characters matched by the name group `[\w\.]+` of `_safe_nested_call`'s
pattern (ASCII range; the repository's method names are ASCII). -/
def isWordDotChar (c : Char) : Bool :=
  c.isAlphanum || c = '_' || c = '.'

/-- The match of `^\s*([\w\.]+)\((.*)\)\s*$` in `_safe_nested_call`
(scpi_instrument.py line 224): optional leading whitespace, a maximal run of
word/dot characters, an opening parenthesis, then (greedily) everything up to
the last closing parenthesis that is followed only by trailing whitespace.
No match raises ValueError. -/
def parseNestedCall (l : List Char) : Except ExecError (String × List Char) :=
  let t := l.dropWhile Char.isWhitespace
  let name := t.takeWhile isWordDotChar
  let rest := t.dropWhile isWordDotChar
  match name, rest with
  | [], _ => .error (.valueError "Invalid nested method format in YAML")
  | _, '(' :: inner =>
    match inner.reverse.dropWhile Char.isWhitespace with
    | ')' :: argsRev => .ok (String.mk name, argsRev.reverse)
    | _ => .error (.valueError "Invalid nested method format in YAML")
  | _, _ => .error (.valueError "Invalid nested method format in YAML")

/-- The exponent tail of a Python float literal: an optional sign followed by
one or more digits, consuming the whole remaining input. -/
def parseExpDigits (l : List Char) : Option Int :=
  let p : Int × List Char :=
    match l with
    | '+' :: r => (1, r)
    | '-' :: r => (-1, r)
    | r => (1, r)
  if p.2.isEmpty || p.2.any (fun c => !c.isDigit) then none
  else some (p.1 * (digitsToNat p.2 : Int))

/-- Python float(value_str) on the literal grammar the repository's nested
calls use: optional surrounding whitespace, optional sign, a decimal mantissa
with optional fraction part, and an optional exponent. The numeric value is
kept as an exact rational (see `Value`). Underscored digit groups, inf and
nan are outside the embedding. -/
def pyFloat (s : String) : Option Rat :=
  let cs := pyStripWs s.toList
  let sp : Bool × List Char :=
    match cs with
    | '+' :: r => (false, r)
    | '-' :: r => (true, r)
    | r => (false, r)
  let ip := sp.2.takeWhile Char.isDigit
  let rest1 := sp.2.dropWhile Char.isDigit
  let fr : List Char × List Char × Bool :=
    match rest1 with
    | '.' :: r => (r.takeWhile Char.isDigit, r.dropWhile Char.isDigit, true)
    | r => ([], r, false)
  if ip.isEmpty && (!fr.2.2 || fr.1.isEmpty) then none
  else
    let tenK : Nat := 10 ^ fr.1.length
    let sgn : Int := if sp.1 then -1 else 1
    let mantNum : Nat := digitsToNat ip * tenK + digitsToNat fr.1
    match fr.2.1 with
    | [] => some (mkRat (sgn * Int.ofNat mantNum) tenK)
    | e :: r =>
      if e = 'e' || e = 'E' then
        match parseExpDigits r with
        | some ex =>
          if 0 ≤ ex then
            some (mkRat (sgn * Int.ofNat (mantNum * 10 ^ ex.toNat)) tenK)
          else
            some (mkRat (sgn * Int.ofNat mantNum) (tenK * 10 ^ (-ex).toNat))
        | none => none
      else none

/-- The characters stripped from a non-numeric nested-call value:
`value_str.strip(quote-characters)` (scpi_instrument.py line 244). -/
def isQuoteChar (c : Char) : Bool :=
  c = '\x27' || c = '"'

/-- Python s.strip() restricted to quote characters, both ends. -/
def stripQuoteChars (l : List Char) : List Char :=
  ((l.dropWhile isQuoteChar).reverse.dropWhile isQuoteChar).reverse

/-- Value conversion of `_safe_nested_call` (scpi_instrument.py lines
238-245): try float(value_str); an integral result collapses to int via
value.is_integer(); a lexically invalid number is passed as a quote-stripped
string. -/
def parseValue (value_str : String) : Value :=
  match pyFloat value_str with
  | some q => if q.den = 1 then Value.int q.num else Value.float q
  | none => Value.str (String.mk (stripQuoteChars value_str.toList))

/-- The keyword-pair loop of `_safe_nested_call` (scpi_instrument.py lines
233-245): each comma-separated pair is stripped and broken at its first
equals sign (a pair without one raises ValueError, as Python's two-name
unpacking does). A duplicate key would overwrite in Python's dict; the
repository's templates do not use duplicate keys. -/
def parseKwargsGo : List (List Char) → Except ExecError (List (String × Value))
  | [] => .ok []
  | pair :: rest =>
    match splitFirst '=' pair with
    | none => .error (.valueError "not enough values to unpack")
    | some (k, v) =>
      match parseKwargsGo rest with
      | .error e => .error e
      | .ok l =>
        .ok ((String.mk (pyStripWs k), parseValue (String.mk (pyStripWs v))) :: l)

/-- Keyword-argument parsing of `_safe_nested_call`: an all-whitespace
argument text yields no keywords; otherwise the text splits on every comma
(the source's parser assumes no commas inside values). -/
def parseKwargs (args_str : List Char) : Except ExecError (List (String × Value)) :=
  if (pyStripWs args_str).isEmpty then .ok []
  else parseKwargsGo ((splitOnChar ',' args_str).map pyStripWs)

/-- One templated step of `_execute_yaml_method` (scpi_instrument.py lines
202-207): substitute the call-time keywords into the template; if the result
contains both parentheses, hand it to `_safe_nested_call`; otherwise dispatch
it as a write when the step's type is the string `write`, else as a query. -/
def execTemplated (kw : List (String × Value)) (cmd_type : String) (tpl : String) :
    Except ExecError Effect :=
  match pyFormat tpl kw with
  | .error e => .error e
  | .ok fc =>
    if fc.any (fun c => c = '(') && fc.any (fun c => c = ')') then
      match parseNestedCall fc with
      | .error e => .error e
      | .ok (name, args) =>
        match parseKwargs args with
        | .error e => .error e
        | .ok kws => .ok (.nested name kws)
    else if cmd_type = "write" then .ok (.write (String.mk fc))
    else .ok (.query (String.mk fc))

/-- One command item of a declarative sequence (scpi_instrument.py lines
185-207): a bare string infers its kind from its text; a mapping takes its
`type` key (defaulting to `write`) and its `cmd` key (defaulting to the
empty template). -/
def execItem (kw : List (String × Value)) : CmdItem → Except ExecError Effect
  | .str tpl => execTemplated kw (inferKindStr tpl) tpl
  | .dict ty cmd => execTemplated kw (ty.getD "write") (cmd.getD "")

/-- What a dispatched step returns to the executor: Python None, a string
response, or a list response (comma-split data). `KlabInstrument.write`
always returns None; query and nested-call returns come from the oracles. -/
inductive PyRes where
  | none
  | str (s : String)
  | list (l : List String)
deriving DecidableEq

/-- The result-collection test of `_execute_yaml_method` (scpi_instrument.py
line 209): a response is appended when it is not None and, if a list, not
empty. -/
def collectP : PyRes → Bool
  | .none => false
  | .str _ => true
  | .list l => !l.isEmpty

/-- The value each dispatched effect returns: a write returns None
(`KlabInstrument.write` returns None explicitly), a query returns what the
instrument's query oracle gives, a nested call returns what the invoked
method gives. -/
def effectResponse (qres : String → PyRes)
    (nres : String → List (String × Value) → PyRes) : Effect → PyRes
  | .write _ => .none
  | .query c => qres c
  | .nested n k => nres n k

/-- The observable outcome of running a declarative command sequence: the
dispatched effects in order, the collected results in order, and the
exception (if any) that aborted the sequence. A raised error propagates out
of `_execute_yaml_method` in Python, so when `err` is set the partial
`results` are discarded by the caller; they are kept here as trace data. -/
structure ExecOut where
  effects : List Effect
  results : List PyRes
  err : Option ExecError
deriving DecidableEq

/-- The step loop of `_execute_yaml_method` (scpi_instrument.py lines
184-211): execute each command item in order; an erring step dispatches
nothing and aborts all later steps; a write response (None) is never
collected, non-null query and nested responses are collected in order. -/
def execSeq (qres : String → PyRes) (nres : String → List (String × Value) → PyRes)
    (kw : List (String × Value)) : List CmdItem → ExecOut
  | [] => ⟨[], [], none⟩
  | it :: rest =>
    match execItem kw it with
    | .error e => ⟨[], [], some e⟩
    | .ok eff =>
      let res := effectResponse qres nres eff
      let out := execSeq qres nres kw rest
      ⟨eff :: out.effects,
       if collectP res then res :: out.results else out.results,
       out.err⟩

/-- A method entry of the loaded YAML specification (scpi_instrument.py lines
174-182): directly a list of command items, a mapping holding them under a
`commands` key, or anything else (a ValueError at execution time). -/
inductive MethodSpecV where
  | list (cmds : List CmdItem)
  | withCommands (cmds : List CmdItem)
  | invalid
deriving DecidableEq

/-- The parsed YAML specification document: its optional top-level `methods`
mapping (an ordered association of method names to entries). -/
structure SpecDoc where
  methods : Option (List (String × MethodSpecV))
deriving DecidableEq

/-- The method names `_discover_yaml_methods` lists (scpi_instrument.py
lines 121-127): the keys of the methods mapping when present, the empty
list otherwise. -/
def SpecDoc.keys (d : SpecDoc) : List String :=
  match d.methods with
  | some ms => ms.map Prod.fst
  | none => []

/-- Membership test `method_name in self.spec['methods']` combined with the
`'methods' in self.spec` guard. -/
def SpecDoc.hasMethod (d : SpecDoc) (m : String) : Bool :=
  match d.methods with
  | none => false
  | some ms => (ms.lookup m).isSome

/-- `ScpiInstrument._execute_yaml_method` (scpi_instrument.py lines 154-211):
look the method up (AttributeError when absent), choose its command sequence
by shape (ValueError for an invalid shape), and run the step loop. -/
def execute_yaml_method (spec : SpecDoc) (qres : String → PyRes)
    (nres : String → List (String × Value) → PyRes)
    (method_name : String) (kw : List (String × Value)) : Except ExecError ExecOut :=
  match spec.methods with
  | none => .error (.attributeError method_name)
  | some ms =>
    match ms.lookup method_name with
    | none => .error (.attributeError method_name)
    | some (.list cmds) => .ok (execSeq qres nres kw cmds)
    | some (.withCommands cmds) => .ok (execSeq qres nres kw cmds)
    | some .invalid => .error (.valueError "Invalid YAML structure for method")

/-- The missing-method computation of `_validate_yaml_methods`
(scpi_instrument.py lines 143-146): a required name is missing when the spec
has no `methods` key or the name is not among its keys; the missing names are
collected in declaration order, all of them. -/
def requiredMissing (required : List String) (d : SpecDoc) : List String :=
  required.filter (fun m => !(d.hasMethod m))

/-- An error raised by `ScpiInstrument.__init__` when a YAML file was given:
the TypeError from testing membership in a None document, the
NotImplementedError of `_validate_yaml_methods` carrying every missing
required name, or the FileNotFoundError of `load_yaml_spec`. -/
inductive InitError where
  | typeError (msg : String)
  | notImplemented (missing : List String)
  | fileNotFoundErr
deriving DecidableEq

/-- The state of a successfully constructed `ScpiInstrument`: its loaded spec
and the discovered YAML method names. -/
structure InstState where
  spec : SpecDoc
  yaml_methods : List String
deriving DecidableEq

/-- The YAML part of `ScpiInstrument.__init__` (scpi_instrument.py lines
106-152), given the already-loaded document: `_discover_yaml_methods`
evaluates the membership test `'methods' in self.spec`, which raises
TypeError when the document parsed to None; then `_validate_yaml_methods`
raises NotImplementedError listing every required method missing from the
spec, and construction succeeds otherwise. `required` stands for the set of
class attributes carrying the `_is_yaml_method` mark set by the
`@yaml_method` decorator of yaml_utils.py. -/
def scpiInit (loaded : Option SpecDoc) (required : List String) :
    Except InitError InstState :=
  match loaded with
  | none => .error (.typeError "argument of type NoneType is not iterable")
  | some doc =>
    let ym := doc.keys
    let missing := requiredMissing required doc
    if missing.isEmpty then .ok ⟨doc, ym⟩
    else .error (.notImplemented missing)

end ScpiInstrumentPy

namespace KlabInstrumentPy

/-- The state of a `VisaBackend` (klab_instrument.py lines 54-104):
`connected` is the truthiness of `_visa_instrument`; `device` is the
response oracle of the underlying VISA session for queries, `readData` the
pending data a read would return. -/
structure VisaBackend where
  connected : Bool
  device : String → String
  readData : String

/-- `VisaBackend.write` (klab_instrument.py lines 81-86): raises RuntimeError
when no VISA instrument is connected. -/
def VisaBackend.write (b : VisaBackend) (_command : String) : Except String Unit :=
  if b.connected then .ok ()
  else .error "RuntimeError: VISA instrument not connected"

/-- `VisaBackend.read` (klab_instrument.py lines 88-93): returns the stripped
response, or raises RuntimeError when not connected. -/
def VisaBackend.read (b : VisaBackend) : Except String String :=
  if b.connected then .ok (pyStripStr b.readData)
  else .error "RuntimeError: VISA instrument not connected"

/-- `VisaBackend.query` (klab_instrument.py lines 95-100): returns the
stripped response, or raises RuntimeError when not connected. -/
def VisaBackend.query (b : VisaBackend) (command : String) : Except String String :=
  if b.connected then .ok (pyStripStr (b.device command))
  else .error "RuntimeError: VISA instrument not connected"

/-- The observable outcome of calling an instrument-level method: it either
returns a value (possibly Python None) or lets an exception escape. -/
inductive CallOutcome where
  | returned (v : Option String)
  | raised (msg : String)
deriving DecidableEq

/-- `KlabInstrument.write` (klab_instrument.py lines 167-176): the backend
call is wrapped in try/except — any failure is printed as a warning and
swallowed — and the method returns None in every case. -/
def KlabInstrument.write (b : VisaBackend) (command : String) : CallOutcome :=
  match b.write command with
  | .ok _ => .returned none
  | .error _ => .returned none

/-- `KlabInstrument.read` (klab_instrument.py lines 178-191): returns the
backend's response, or — on any exception, the not-connected RuntimeError
included — prints a warning and returns None. -/
def KlabInstrument.read (b : VisaBackend) : CallOutcome :=
  match b.read with
  | .ok r => .returned (some r)
  | .error _ => .returned none

/-- `KlabInstrument.query` (klab_instrument.py lines 193-206): returns the
backend's response, or — on any exception, the not-connected RuntimeError
included — prints a warning and returns None. -/
def KlabInstrument.query (b : VisaBackend) (command : String) : CallOutcome :=
  match b.query command with
  | .ok r => .returned (some r)
  | .error _ => .returned none

end KlabInstrumentPy

namespace ScpiInstrumentPy

/-- The retry loop of `ScpiInstrument.query` (scpi_instrument.py lines
349-365): `attempt i` is the VISA session's outcome for the i-th try; after
`retries` failed attempts a ConnectionError is raised; a success returns the
stripped response. -/
def scpiQueryLoop (attempt : Nat → Except String String) (i : Nat) :
    Nat → KlabInstrumentPy.CallOutcome
  | 0 => .raised "ConnectionError: failed after retries due to repeated VISA IO errors"
  | n + 1 =>
    match attempt i with
    | .ok r => .returned (some (pyStripStr r))
    | .error _ => scpiQueryLoop attempt (i + 1) n

/-- `ScpiInstrument.query` (scpi_instrument.py lines 325-365): when
`_visa_instrument` is falsy it prints a warning and returns None; otherwise
it retries the VISA query up to `retries` times. -/
def ScpiInstrument.query (connected : Bool) (attempt : Nat → Except String String)
    (retries : Nat) (_command : String) : KlabInstrumentPy.CallOutcome :=
  if connected then scpiQueryLoop attempt 0 retries
  else .returned none

end ScpiInstrumentPy

namespace YamlUtils

/-- Errors of `load_yaml_spec` (yaml_utils.py lines 49-81). -/
inductive LoadError where
  | fileNotFound
deriving DecidableEq

/-- os.path.join(a, b) for the POSIX paths the loader builds: an absolute
second component replaces the first. -/
def joinPath (a b : String) : String :=
  match b.toList with
  | '/' :: _ => b
  | _ => a ++ "/" ++ b

/-- The candidate list of `load_yaml_spec` (yaml_utils.py lines 71-74): the
path joined to the calling module's directory first, then the path exactly
as given (resolved against the current working directory). -/
def searchPaths (callerPath filePath : String) : List String :=
  [joinPath callerPath filePath, filePath]

/-- The search loop of `load_yaml_spec` (yaml_utils.py lines 76-81): the
first existing candidate is opened and parsed; if none exists,
FileNotFoundError. The filesystem oracle maps a path to `none` when the
path does not exist, and otherwise to the yaml.safe_load of its content —
which is itself `none` for a null (for example empty) document. -/
def firstExisting (fs : String → Option (Option ScpiInstrumentPy.SpecDoc)) :
    List String → Except LoadError (Option ScpiInstrumentPy.SpecDoc)
  | [] => .error .fileNotFound
  | p :: rest =>
    match fs p with
    | some doc => .ok doc
    | none => firstExisting fs rest

/-- `load_yaml_spec` (yaml_utils.py lines 49-81). -/
def load_yaml_spec (fs : String → Option (Option ScpiInstrumentPy.SpecDoc))
    (callerPath filePath : String) : Except LoadError (Option ScpiInstrumentPy.SpecDoc) :=
  firstExisting fs (searchPaths callerPath filePath)

/-- Modelled from the spec: the search order the specification describes for
the loader — the explicit path as given, then a path relative to the
driver's own source location, then a path under a package-level shared
specification directory. This definition follows the spec's words, not the
source, and exists only to be compared with `load_yaml_spec`. -/
def load_yaml_spec_specOrder (fs : String → Option (Option ScpiInstrumentPy.SpecDoc))
    (driverDir sharedDir filePath : String) :
    Except LoadError (Option ScpiInstrumentPy.SpecDoc) :=
  firstExisting fs [filePath, joinPath driverDir filePath, joinPath sharedDir filePath]

end YamlUtils

namespace ScpiInstrumentPy

/-- `ScpiInstrument.__init__` with a YAML file (scpi_instrument.py lines
106-115): `_load_spec_from_yaml` calls `load_yaml_spec`, whose
FileNotFoundError propagates; then discovery and validation run on the
loaded document (see `scpiInit`). -/
def scpiConstruct (fs : String → Option (Option SpecDoc))
    (callerPath yaml_file : String) (required : List String) :
    Except InitError InstState :=
  match YamlUtils.load_yaml_spec fs callerPath yaml_file with
  | .error _ => .error .fileNotFoundErr
  | .ok loaded => scpiInit loaded required

end ScpiInstrumentPy

/-! ## Helper lemmas -/

theorem pyJoin_glue (sep a b : String) (l : List String) :
    pyJoin sep ((a ++ sep ++ b) :: l) = a ++ sep ++ pyJoin sep (b :: l) := by
  cases l with
  | nil => rfl
  | cons c cs => simp [pyJoin, String.append_assoc]

theorem instrProxy_foldl_getattr (rest : List String) (acc : List String) :
    (rest.foldl InstrumentPy.SCPICommandProxy.getattr ⟨acc⟩).command_parts
      = acc ++ rest.map pyUpper := by
  induction rest generalizing acc with
  | nil => simp
  | cons n ns ih =>
    show (ns.foldl _ (InstrumentPy.SCPICommandProxy.getattr ⟨acc⟩ n)).command_parts = _
    rw [show InstrumentPy.SCPICommandProxy.getattr ⟨acc⟩ n
          = ⟨acc ++ [pyUpper n]⟩ from rfl]
    rw [ih (acc ++ [pyUpper n])]
    simp

theorem scpiProxy_foldl_getattr (rest : List String) (p : String) (h : p ≠ "") :
    (rest.foldl ScpiInstrumentPy.SCPICommandProxy.getattr ⟨p⟩).pfx
      = pyJoin ":" (p :: rest) := by
  induction rest generalizing p with
  | nil => rfl
  | cons n ns ih =>
    have hne : p ++ ":" ++ n ≠ "" := by
      intro hc
      have h2 : (p ++ ":" ++ n).length = ("" : String).length := by rw [hc]
      have h3 : ((":" : String)).length = 1 := rfl
      have h4 : ("" : String).length = 0 := rfl
      rw [String.length_append, String.length_append, h3, h4] at h2
      omega
    show (ns.foldl _ (ScpiInstrumentPy.SCPICommandProxy.getattr ⟨p⟩ n)).pfx = _
    rw [show ScpiInstrumentPy.SCPICommandProxy.getattr ⟨p⟩ n
          = ⟨p ++ ":" ++ n⟩ from by simp [ScpiInstrumentPy.SCPICommandProxy.getattr, h]]
    rw [ih (p ++ ":" ++ n) hne, pyJoin_glue]
    rfl

/-- A zero-argument call on the instrument.py proxy queries the colon-joined
parts followed by a question mark. -/
theorem instrProxy_call_nil (p : InstrumentPy.SCPICommandProxy) :
    p.call [] = Action.query (pyJoin ":" p.command_parts ++ "?") := rfl

/-- A zero-argument call on the scpi_instrument.py proxy queries its prefix
followed by a question mark. -/
theorem scpiProxy_call_nil (p : ScpiInstrumentPy.SCPICommandProxy) :
    p.call [] = Action.query (p.pfx ++ "?") := rfl

/-! ## Claim theorems -/

/-- C1 (corrected): For an attribute chain of length N ≥ 1 called with zero
arguments, the proxy of klab/instrument.py produces exactly
SEG1:SEG2:...:SEGN? with every segment uppercased and routes it through the
instrument's query operation (`ask`), never through write — as the claim
states. The same-named proxy of klab/instruments/scpi_instrument.py, used by
`ScpiInstrument`, likewise emits the colon-joined chain followed by a
question mark and routes it through `query`, but it keeps the attribute
names in their original case: no uppercasing occurs. -/
theorem C1_chain_zero_arg_call (first : String) (rest : List String) (h : first ≠ "") :
    InstrumentPy.SCPICommandProxy.call (InstrumentPy.chainProxy first rest) []
      = Action.query (pyJoin ":" ((first :: rest).map pyUpper) ++ "?")
    ∧ ScpiInstrumentPy.SCPICommandProxy.call (ScpiInstrumentPy.chainProxy first rest) []
      = Action.query (pyJoin ":" (first :: rest) ++ "?") := by
  constructor
  · rw [instrProxy_call_nil]
    have hp : (InstrumentPy.chainProxy first rest).command_parts
        = (first :: rest).map pyUpper := by
      unfold InstrumentPy.chainProxy InstrumentPy.SCPIInstrument.dynamicAttr
      rw [instrProxy_foldl_getattr]
      simp
    rw [hp]
  · rw [scpiProxy_call_nil]
    have hp : (ScpiInstrumentPy.chainProxy first rest).pfx = pyJoin ":" (first :: rest) := by
      unfold ScpiInstrumentPy.chainProxy ScpiInstrumentPy.ScpiInstrument.dynamicAttr
      exact scpiProxy_foldl_getattr rest first h
    rw [hp]

/-- C1 witness: the chain a.b.c called with no arguments. -/
theorem C1_chain_zero_arg_call_witness :
    InstrumentPy.SCPICommandProxy.call (InstrumentPy.chainProxy "a" ["b", "c"]) []
      = Action.query "A:B:C?"
    ∧ ScpiInstrumentPy.SCPICommandProxy.call (ScpiInstrumentPy.chainProxy "a" ["b", "c"]) []
      = Action.query "a:b:c?" := by
  have h := C1_chain_zero_arg_call "a" ["b", "c"] (by decide)
  exact ⟨h.1.trans (by decide), h.2.trans (by decide)⟩

/-- C1 counterexample: on `ScpiInstrument` (scpi_instrument.py), the chain
consisting of the single attribute a, called with no arguments, emits the
command a? — not the uppercased A? the claim requires. -/
theorem C1_chain_zero_arg_call_counterexample :
    ScpiInstrumentPy.SCPICommandProxy.call ⟨"a"⟩ [] ≠ Action.query "A?"
    ∧ ScpiInstrumentPy.SCPICommandProxy.call ⟨"a"⟩ [] = Action.query "a?" := by
  constructor
  · decide
  · decide

/-- C2 (corrected): On the proxy of klab/instrument.py the claim holds as
stated: a marker-first invocation always emits the path followed by a
question mark, then — when further arguments are present — a single space and
the comma-joined argument list, formatted with numeric values as-is, NoQuote
strings bare, and plain strings single-quoted; it is dispatched to the query
operation. Argument-zero inspection is the sole distinguishing condition:
any non-empty argument list whose head is not the marker dispatches to
write. The same-named reduced proxy of scpi_instrument.py, however, performs
no marker inspection at all: every invocation with arguments — the marker
included — dispatches to write, so on `ScpiInstrument` the claim fails. -/
theorem C2_marker_query_dispatch :
    (∀ (parts : List String) (query_args : List Arg),
       InstrumentPy.SCPICommandProxy.call ⟨parts⟩ (Arg.marker :: query_args)
         = Action.query ((pyJoin ":" parts ++ "?")
             ++ (if query_args.isEmpty then ""
                 else " " ++ pyJoin "," (query_args.map InstrumentPy.formatArg))))
    ∧ (∀ n : Int, InstrumentPy.formatArg (Arg.num n) = toString n)
    ∧ (∀ s : String, InstrumentPy.formatArg (Arg.noQuote s) = s)
    ∧ (∀ s : String, InstrumentPy.formatArg (Arg.str s) = "\x27" ++ s ++ "\x27")
    ∧ (∀ (parts : List String) (a : Arg) (rest : List Arg), a ≠ Arg.marker →
         ∃ c, InstrumentPy.SCPICommandProxy.call ⟨parts⟩ (a :: rest) = Action.write c)
    ∧ (∀ (p : String) (args : List Arg),
         ∃ c, ScpiInstrumentPy.SCPICommandProxy.call ⟨p⟩ (Arg.marker :: args)
           = Action.write c) := by
  refine ⟨?_, fun n => rfl, fun s => rfl, fun s => rfl, ?_, ?_⟩
  · intro parts query_args
    cases query_args with
    | nil =>
      show Action.query (pyJoin ":" parts ++ "?")
          = Action.query ((pyJoin ":" parts ++ "?") ++ "")
      rw [String.append_empty]
    | cons a as =>
      show Action.query ((pyJoin ":" parts ++ "?") ++ " "
            ++ pyJoin "," ((a :: as).map InstrumentPy.formatArg))
          = Action.query ((pyJoin ":" parts ++ "?")
            ++ (" " ++ pyJoin "," ((a :: as).map InstrumentPy.formatArg)))
      rw [String.append_assoc]
  · intro parts a rest ha
    cases a with
    | marker => exact absurd rfl ha
    | noQuote s => exact ⟨_, rfl⟩
    | str s => exact ⟨_, rfl⟩
    | num n => exact ⟨_, rfl⟩
  · intro p args
    exact ⟨_, rfl⟩

/-- C2 witness: a marker-first query with a string argument, and a write
dispatch for a non-marker head, on concrete inputs. -/
theorem C2_marker_query_dispatch_witness :
    InstrumentPy.SCPICommandProxy.call ⟨["A", "B"]⟩ [Arg.marker, Arg.str "X"]
      = Action.query "A:B? \x27X\x27"
    ∧ ∃ c, InstrumentPy.SCPICommandProxy.call ⟨["A", "B"]⟩ [Arg.num 5] = Action.write c := by
  constructor
  · exact (C2_marker_query_dispatch.1 ["A", "B"] [Arg.str "X"]).trans (by decide)
  · exact C2_marker_query_dispatch.2.2.2.2.1 ["A", "B"] (Arg.num 5) [] (by decide)

/-- C2 counterexample: on the proxy of scpi_instrument.py (used by
`ScpiInstrument`), an invocation whose first positional argument is the
force-query marker is dispatched to write, not to query, refuting the claim
there. -/
theorem C2_marker_query_dispatch_counterexample :
    (ScpiInstrumentPy.SCPICommandProxy.call ⟨"a:b"⟩ [Arg.marker, Arg.str "X"]).isQuery
      = false := by
  decide

/-- C8 (confirmed): Indexed access on the proxy whose state is a segment
list (klab/instrument.py, the only proxy implementing `__getitem__`) appends
str(k) to the last path segment only — the segment list keeps its shape and
no new colon-delimited segment appears, so a.b[2] called with no arguments
queries A:B2?, not A:B:2? — and indexed access on a proxy with an empty path
fails with the invalid-state ValueError. -/
theorem C8_getitem_last_segment :
    (∀ (parts : List String) (x : String) (k : Int),
       InstrumentPy.SCPICommandProxy.getitem ⟨parts ++ [x]⟩ k
         = Except.ok ⟨parts ++ [x ++ toString k]⟩)
    ∧ (∀ k : Int,
       InstrumentPy.SCPICommandProxy.getitem ⟨[]⟩ k
         = Except.error "Cannot use item access on an empty command path.")
    ∧ (InstrumentPy.SCPICommandProxy.getitem (InstrumentPy.chainProxy "a" ["b"]) 2).map
        (fun p => p.call []) = Except.ok (Action.query "A:B2?") := by
  refine ⟨?_, fun k => rfl, by decide⟩
  intro parts x k
  cases parts with
  | nil => rfl
  | cons p ps =>
    have h1 : ((p :: ps) ++ [x]).dropLast = p :: ps := List.dropLast_concat
    have h2 : ((p :: ps) ++ [x]).getLast (by simp) = x := List.getLast_concat _
    calc InstrumentPy.SCPICommandProxy.getitem ⟨(p :: ps) ++ [x]⟩ k
        = Except.ok ⟨((p :: ps) ++ [x]).dropLast
            ++ [((p :: ps) ++ [x]).getLast (by simp) ++ toString k]⟩ := rfl
      _ = Except.ok ⟨(p :: ps) ++ [x ++ toString k]⟩ := by rw [h1, h2]

/-! ## Declarative executor claims -/

/-- The specification document of the C3 scenarios: method foo holds the
single write template with placeholder x, method bar the single query
template. -/
def specC3 : ScpiInstrumentPy.SpecDoc :=
  ⟨some [("foo", .list [.str "BAR:BAZ \x7bx\x7d"]),
         ("bar", .list [.str "BAR:BAZ? "])]⟩

/-- C3 (confirmed): Executing the declarative method foo, whose sequence is
the single write template BAR:BAZ followed by the x placeholder, with x = 3
issues exactly one write of the string BAR:BAZ 3 and returns an empty result
list; executing bar, whose single template is the query form ending in a
question mark, calls query exactly once and returns the one-element list
holding that query's return value; and in general the result list of any
sequence is exactly the non-null responses of its effects in execution
order, a write's response being None and never collected. -/
theorem C3_write_and_query_round_trip (qres : String → ScpiInstrumentPy.PyRes)
    (nres : String → List (String × ScpiInstrumentPy.Value) → ScpiInstrumentPy.PyRes)
    (v : String) (hq : qres "BAR:BAZ? " = ScpiInstrumentPy.PyRes.str v) :
    ScpiInstrumentPy.execute_yaml_method specC3 qres nres "foo"
        [("x", ScpiInstrumentPy.Value.int 3)]
      = Except.ok ⟨[ScpiInstrumentPy.Effect.write "BAR:BAZ 3"], [], none⟩
    ∧ ScpiInstrumentPy.execute_yaml_method specC3 qres nres "bar" []
      = Except.ok ⟨[ScpiInstrumentPy.Effect.query "BAR:BAZ? "],
                   [ScpiInstrumentPy.PyRes.str v], none⟩
    ∧ ∀ (kw : List (String × ScpiInstrumentPy.Value)) (items : List ScpiInstrumentPy.CmdItem),
        (ScpiInstrumentPy.execSeq qres nres kw items).results
          = ((ScpiInstrumentPy.execSeq qres nres kw items).effects.map
              (ScpiInstrumentPy.effectResponse qres nres)).filter ScpiInstrumentPy.collectP := by
  refine ⟨rfl, ?_, ?_⟩
  · have base : ScpiInstrumentPy.execute_yaml_method specC3 qres nres "bar" []
        = Except.ok ⟨[ScpiInstrumentPy.Effect.query "BAR:BAZ? "],
            if ScpiInstrumentPy.collectP (qres "BAR:BAZ? ")
            then [qres "BAR:BAZ? "] else [], none⟩ := rfl
    rw [hq] at base
    simpa [ScpiInstrumentPy.collectP] using base
  · intro kw items
    induction items with
    | nil => rfl
    | cons it rest ih =>
      cases h : ScpiInstrumentPy.execItem kw it with
      | error e => simp [ScpiInstrumentPy.execSeq, h]
      | ok eff =>
        simp only [ScpiInstrumentPy.execSeq, h, List.map_cons, List.filter_cons]
        cases hc : ScpiInstrumentPy.collectP
            (ScpiInstrumentPy.effectResponse qres nres eff) with
        | true => simp [hc, ih]
        | false => simp [hc, ih]

/-- C3 witness: concrete oracles, the query returning the string 42. -/
theorem C3_write_and_query_round_trip_witness :
    ScpiInstrumentPy.execute_yaml_method specC3 (fun _ => ScpiInstrumentPy.PyRes.str "42")
        (fun _ _ => ScpiInstrumentPy.PyRes.none) "foo" [("x", ScpiInstrumentPy.Value.int 3)]
      = Except.ok ⟨[ScpiInstrumentPy.Effect.write "BAR:BAZ 3"], [], none⟩
    ∧ ScpiInstrumentPy.execute_yaml_method specC3 (fun _ => ScpiInstrumentPy.PyRes.str "42")
        (fun _ _ => ScpiInstrumentPy.PyRes.none) "bar" []
      = Except.ok ⟨[ScpiInstrumentPy.Effect.query "BAR:BAZ? "],
                   [ScpiInstrumentPy.PyRes.str "42"], none⟩ := by
  have h := C3_write_and_query_round_trip (fun _ => ScpiInstrumentPy.PyRes.str "42")
    (fun _ _ => ScpiInstrumentPy.PyRes.none) "42" rfl
  exact ⟨h.1, h.2.1⟩

/-- The specification document of the C4 scenario: method run holds the
single nested-call template invoking configure with the lvl placeholder. -/
def specC4 : ScpiInstrumentPy.SpecDoc :=
  ⟨some [("run", .list [.str "configure(level=\x7blvl\x7d)"])]⟩

/-- C4 (confirmed): A template substituting to the nested-call form
name(key=value, ...) makes the executor recursively invoke that method on
the same instrument: running the template configure(level=lvl) with lvl = 2
produces the nested invocation of configure with keyword level equal to the
integer 2 — not the string 2. In general a value string that float() parses
becomes a number, an integral one collapsing to an int; a non-numeric value
is passed as a quote-stripped string; and whenever substitution yields a
parenthesized nested-call text, the step dispatches the recursive invocation
rather than a write or query. -/
theorem C4_nested_call_resolution :
    (∀ (qres : String → ScpiInstrumentPy.PyRes)
       (nres : String → List (String × ScpiInstrumentPy.Value) → ScpiInstrumentPy.PyRes),
       ScpiInstrumentPy.execute_yaml_method specC4 qres nres "run"
           [("lvl", ScpiInstrumentPy.Value.int 2)]
         = Except.ok ⟨[ScpiInstrumentPy.Effect.nested "configure"
               [("level", ScpiInstrumentPy.Value.int 2)]],
             if ScpiInstrumentPy.collectP
                 (nres "configure" [("level", ScpiInstrumentPy.Value.int 2)])
             then [nres "configure" [("level", ScpiInstrumentPy.Value.int 2)]] else [],
             none⟩)
    ∧ (∀ (s : String) (q : Rat), ScpiInstrumentPy.pyFloat s = some q → q.den = 1 →
         ScpiInstrumentPy.parseValue s = ScpiInstrumentPy.Value.int q.num)
    ∧ (∀ (s : String) (q : Rat), ScpiInstrumentPy.pyFloat s = some q → q.den ≠ 1 →
         ScpiInstrumentPy.parseValue s = ScpiInstrumentPy.Value.float q)
    ∧ (∀ s : String, ScpiInstrumentPy.pyFloat s = none →
         ScpiInstrumentPy.parseValue s
           = ScpiInstrumentPy.Value.str (String.mk (ScpiInstrumentPy.stripQuoteChars s.toList)))
    ∧ (∀ (kw : List (String × ScpiInstrumentPy.Value)) (tpl : String) (fc : List Char)
         (name : String) (args : List Char)
         (kws : List (String × ScpiInstrumentPy.Value)),
         ScpiInstrumentPy.pyFormat tpl kw = Except.ok fc →
         fc.any (fun c => c = '(') = true → fc.any (fun c => c = ')') = true →
         ScpiInstrumentPy.parseNestedCall fc = Except.ok (name, args) →
         ScpiInstrumentPy.parseKwargs args = Except.ok kws →
         ScpiInstrumentPy.execItem kw (ScpiInstrumentPy.CmdItem.str tpl)
           = Except.ok (ScpiInstrumentPy.Effect.nested name kws)) := by
  refine ⟨fun qres nres => rfl, ?_, ?_, ?_, ?_⟩
  · intro s q h h1
    simp [ScpiInstrumentPy.parseValue, h, h1]
  · intro s q h h1
    simp [ScpiInstrumentPy.parseValue, h, h1]
  · intro s h
    simp [ScpiInstrumentPy.parseValue, h]
  · intro kw tpl fc name args kws hf h1 h2 hn hk
    simp [ScpiInstrumentPy.execItem, ScpiInstrumentPy.execTemplated, hf, h1, h2, hn, hk]

/-- C4 witness: the value 2.0 parses as a float and collapses to the integer
2; the value text with quotes strips to a plain string; and the concrete
nested-call step dispatches the recursive invocation. -/
theorem C4_nested_call_resolution_witness :
    ScpiInstrumentPy.parseValue "2.0" = ScpiInstrumentPy.Value.int 2
    ∧ ScpiInstrumentPy.parseValue "\x27hi\x27" = ScpiInstrumentPy.Value.str "hi"
    ∧ ScpiInstrumentPy.execItem [("lvl", ScpiInstrumentPy.Value.int 2)]
        (ScpiInstrumentPy.CmdItem.str "configure(level=\x7blvl\x7d)")
      = Except.ok (ScpiInstrumentPy.Effect.nested "configure"
          [("level", ScpiInstrumentPy.Value.int 2)]) := by
  refine ⟨?_, ?_, ?_⟩
  · exact (C4_nested_call_resolution.2.1 "2.0" 2 (by decide) (by decide)).trans (by decide)
  · exact (C4_nested_call_resolution.2.2.2.1 "\x27hi\x27" (by decide)).trans (by decide)
  · exact C4_nested_call_resolution.2.2.2.2 [("lvl", ScpiInstrumentPy.Value.int 2)]
      "configure(level=\x7blvl\x7d)" ("configure(level=2)".toList) "configure"
      ("level=2".toList) [("level", ScpiInstrumentPy.Value.int 2)]
      (by decide) (by decide) (by decide) (by decide) (by decide)

/-! ## Missing-parameter abort (C6) -/

theorem ident_char_facts {c : Char} (h : (c.isAlphanum || c = '_') = true) :
    c ≠ '\x7b' ∧ c ≠ '\x7d' := by
  refine ⟨fun hc => ?_, fun hc => ?_⟩ <;> subst hc <;> exact absurd h (by decide)

/-- Scanning brace-free text only copies it: the formatter's outcome on a
longer input factors through the remaining input. -/
theorem formatGo_text_append (kw : List (String × ScpiInstrumentPy.Value))
    (pre l : List Char) (hpre : ∀ c ∈ pre, c ≠ '\x7b' ∧ c ≠ '\x7d') :
    ScpiInstrumentPy.pyFormatGo kw .text (pre ++ l)
      = (ScpiInstrumentPy.pyFormatGo kw .text l).map (fun t => pre ++ t) := by
  induction pre with
  | nil =>
    cases hx : ScpiInstrumentPy.pyFormatGo kw .text l with
    | ok t => simp only [List.nil_append, hx]; rfl
    | error e => simp only [List.nil_append, hx]; rfl
  | cons c cs ih =>
    have hc : c ≠ '\x7b' ∧ c ≠ '\x7d' := hpre c (List.mem_cons_self c cs)
    have ih' := ih (fun x hx => hpre x (List.mem_cons_of_mem c hx))
    show ScpiInstrumentPy.pyFormatGo kw .text (c :: (cs ++ l)) = _
    rw [show ScpiInstrumentPy.pyFormatGo kw .text (c :: (cs ++ l))
          = (ScpiInstrumentPy.pyFormatGo kw .text (cs ++ l)).map (fun t => c :: t) from by
        simp [ScpiInstrumentPy.pyFormatGo, hc.1, hc.2]]
    rw [ih']
    cases ScpiInstrumentPy.pyFormatGo kw .text l with
    | ok t => rfl
    | error e => rfl

/-- A field-name collecting scan whose name is absent from the keyword
arguments errors with the KeyError for that name, producing no output. -/
theorem formatGo_key_missing (kw : List (String × ScpiInstrumentPy.Value))
    (acc key rest : List Char) (hkey : ∀ c ∈ key, c ≠ '\x7d')
    (hmiss : kw.lookup (String.mk (acc.reverse ++ key)) = none) :
    ScpiInstrumentPy.pyFormatGo kw (.key acc) (key ++ '\x7d' :: rest)
      = Except.error (.keyError (String.mk (acc.reverse ++ key))) := by
  induction key generalizing acc with
  | nil =>
    simp only [List.append_nil] at hmiss
    simp [ScpiInstrumentPy.pyFormatGo, hmiss]
  | cons c cs ih =>
    have hc : c ≠ '\x7d' := hkey c (List.mem_cons_self c cs)
    have hmiss' : kw.lookup (String.mk ((c :: acc).reverse ++ cs)) = none := by
      simpa [List.reverse_cons, List.append_assoc] using hmiss
    have ih' := ih (c :: acc) (fun x hx => hkey x (List.mem_cons_of_mem c hx)) hmiss'
    show ScpiInstrumentPy.pyFormatGo kw (.key acc) (c :: (cs ++ '\x7d' :: rest)) = _
    rw [show ScpiInstrumentPy.pyFormatGo kw (.key acc) (c :: (cs ++ '\x7d' :: rest))
          = ScpiInstrumentPy.pyFormatGo kw (.key (c :: acc)) (cs ++ '\x7d' :: rest) from by
        simp [ScpiInstrumentPy.pyFormatGo, hc]]
    rw [ih']
    congr 2
    simp [List.reverse_cons, List.append_assoc]

/-- Running a longer command sequence after a cleanly finished one composes:
the effects and collected results concatenate and the error is the tail's. -/
theorem execSeq_append (qres : String → ScpiInstrumentPy.PyRes)
    (nres : String → List (String × ScpiInstrumentPy.Value) → ScpiInstrumentPy.PyRes)
    (kw : List (String × ScpiInstrumentPy.Value))
    (l1 l2 : List ScpiInstrumentPy.CmdItem)
    (h : (ScpiInstrumentPy.execSeq qres nres kw l1).err = none) :
    ScpiInstrumentPy.execSeq qres nres kw (l1 ++ l2)
      = ⟨(ScpiInstrumentPy.execSeq qres nres kw l1).effects
           ++ (ScpiInstrumentPy.execSeq qres nres kw l2).effects,
         (ScpiInstrumentPy.execSeq qres nres kw l1).results
           ++ (ScpiInstrumentPy.execSeq qres nres kw l2).results,
         (ScpiInstrumentPy.execSeq qres nres kw l2).err⟩ := by
  induction l1 with
  | nil => simp [ScpiInstrumentPy.execSeq]
  | cons it l1' ih =>
    cases hx : ScpiInstrumentPy.execItem kw it with
    | error e => simp [ScpiInstrumentPy.execSeq, hx] at h
    | ok eff =>
      simp only [ScpiInstrumentPy.execSeq, hx] at h
      have ihh := ih h
      show ScpiInstrumentPy.execSeq qres nres kw (it :: (l1' ++ l2)) = _
      simp only [ScpiInstrumentPy.execSeq, hx, ihh]
      cases hc : ScpiInstrumentPy.collectP
          (ScpiInstrumentPy.effectResponse qres nres eff) <;>
        simp [hc]

/-- C6 (confirmed): Executing a declarative sequence whose step template
contains a placeholder with no matching call-time keyword argument raises
the KeyError during substitution, before any write or query is issued for
that step — the erring step contributes no effect — and aborts the remaining
steps: the dispatched effects are exactly those of the earlier, cleanly
executed steps, and nothing after the erring template runs. -/
theorem C6_missing_param_aborts (qres : String → ScpiInstrumentPy.PyRes)
    (nres : String → List (String × ScpiInstrumentPy.Value) → ScpiInstrumentPy.PyRes)
    (kw : List (String × ScpiInstrumentPy.Value))
    (items1 items2 : List ScpiInstrumentPy.CmdItem)
    (pre key tail : List Char)
    (hpre : ∀ c ∈ pre, c ≠ '\x7b' ∧ c ≠ '\x7d')
    (hident : ∀ c ∈ key, (c.isAlphanum || c = '_') = true)
    (hnotnum : key.all Char.isDigit = false)
    (hmiss : kw.lookup (String.mk key) = none)
    (herr : (ScpiInstrumentPy.execSeq qres nres kw items1).err = none) :
    ScpiInstrumentPy.execSeq qres nres kw
        (items1 ++ ScpiInstrumentPy.CmdItem.str
            (String.mk (pre ++ '\x7b' :: (key ++ '\x7d' :: tail))) :: items2)
      = ⟨(ScpiInstrumentPy.execSeq qres nres kw items1).effects,
         (ScpiInstrumentPy.execSeq qres nres kw items1).results,
         some (.keyError (String.mk key))⟩ := by
  have hfmt : ScpiInstrumentPy.pyFormat
      (String.mk (pre ++ '\x7b' :: (key ++ '\x7d' :: tail))) kw
      = Except.error (.keyError (String.mk key)) := by
    show ScpiInstrumentPy.pyFormatGo kw .text (pre ++ '\x7b' :: (key ++ '\x7d' :: tail))
        = Except.error (.keyError (String.mk key))
    rw [formatGo_text_append kw pre _ hpre]
    cases key with
    | nil => simp at hnotnum
    | cons k ks =>
      have hk := ident_char_facts (hident k (List.mem_cons_self k ks))
      have hstep : ScpiInstrumentPy.pyFormatGo kw .text
          ('\x7b' :: ((k :: ks) ++ '\x7d' :: tail))
          = ScpiInstrumentPy.pyFormatGo kw (.key [k]) (ks ++ '\x7d' :: tail) := by
        simp [ScpiInstrumentPy.pyFormatGo, hk.1, hk.2]
      rw [hstep]
      have hkey : ∀ c ∈ ks, c ≠ '\x7d' :=
        fun c hc => (ident_char_facts (hident c (List.mem_cons_of_mem k hc))).2
      have hmiss' : kw.lookup (String.mk (([k] : List Char).reverse ++ ks)) = none := by
        simpa using hmiss
      rw [formatGo_key_missing kw [k] ks tail hkey hmiss']
      rfl
  have hitem : ScpiInstrumentPy.execItem kw
      (ScpiInstrumentPy.CmdItem.str
        (String.mk (pre ++ '\x7b' :: (key ++ '\x7d' :: tail))))
      = Except.error (.keyError (String.mk key)) := by
    simp [ScpiInstrumentPy.execItem, ScpiInstrumentPy.execTemplated, hfmt]
  rw [execSeq_append qres nres kw items1 _ herr]
  rw [show ScpiInstrumentPy.execSeq qres nres kw
        (ScpiInstrumentPy.CmdItem.str
          (String.mk (pre ++ '\x7b' :: (key ++ '\x7d' :: tail))) :: items2)
      = ⟨[], [], some (.keyError (String.mk key))⟩ from by
    simp [ScpiInstrumentPy.execSeq, hitem]]
  simp

/-- C6 witness: the second of three templated steps mentions the placeholder
y, absent from the call-time keywords; the first step's write is issued, the
KeyError aborts the rest. -/
theorem C6_missing_param_aborts_witness :
    ScpiInstrumentPy.execSeq (fun _ => ScpiInstrumentPy.PyRes.none)
        (fun _ _ => ScpiInstrumentPy.PyRes.none) [("x", ScpiInstrumentPy.Value.int 1)]
        [ScpiInstrumentPy.CmdItem.str "A \x7bx\x7d",
         ScpiInstrumentPy.CmdItem.str "SET \x7by\x7d",
         ScpiInstrumentPy.CmdItem.str "Z"]
      = ⟨[ScpiInstrumentPy.Effect.write "A 1"], [],
         some (.keyError "y")⟩ := by
  have h := C6_missing_param_aborts (fun _ => ScpiInstrumentPy.PyRes.none)
    (fun _ _ => ScpiInstrumentPy.PyRes.none) [("x", ScpiInstrumentPy.Value.int 1)]
    [ScpiInstrumentPy.CmdItem.str "A \x7bx\x7d"] [ScpiInstrumentPy.CmdItem.str "Z"]
    ("SET ".toList) ("y".toList) []
    (by decide) (by decide) (by decide) (by decide) (by decide)
  exact h.trans (by decide)

/-! ## Construction-time validation claims -/

/-- C5 (confirmed): With a loaded (non-null) specification document,
`ScpiInstrument` construction fails — at construction time, inside
`_validate_yaml_methods` — exactly when some specification-required method
name is missing from the document's methods mapping, and the raised
NotImplementedError carries exactly the list of all missing names, no more
and no fewer; when nothing is missing, construction succeeds. -/
theorem C5_required_methods_validated (required : List String)
    (doc : ScpiInstrumentPy.SpecDoc) :
    (ScpiInstrumentPy.requiredMissing required doc = [] →
       ScpiInstrumentPy.scpiInit (some doc) required
         = Except.ok ⟨doc, doc.keys⟩)
    ∧ (ScpiInstrumentPy.requiredMissing required doc ≠ [] →
       ScpiInstrumentPy.scpiInit (some doc) required
         = Except.error (.notImplemented (ScpiInstrumentPy.requiredMissing required doc))) := by
  constructor
  · intro h
    simp [ScpiInstrumentPy.scpiInit, ScpiInstrumentPy.SpecDoc.keys, h]
  · intro h
    cases hm : ScpiInstrumentPy.requiredMissing required doc with
    | nil => exact absurd hm h
    | cons m ms => simp [ScpiInstrumentPy.scpiInit, hm]

/-- C5 witness: three required methods, one of them missing from the
document — construction fails naming exactly that one; with all three
present, construction succeeds. -/
theorem C5_required_methods_validated_witness :
    ScpiInstrumentPy.scpiInit
        (some ⟨some [("measure_resistance", .list []), ("set_voltage", .list [])]⟩)
        ["measure_resistance", "set_current", "set_voltage"]
      = Except.error (.notImplemented ["set_current"])
    ∧ ScpiInstrumentPy.scpiInit
        (some ⟨some [("measure_resistance", .list []), ("set_current", .list []),
                     ("set_voltage", .list [])]⟩)
        ["measure_resistance", "set_current", "set_voltage"]
      = Except.ok ⟨⟨some [("measure_resistance", .list []), ("set_current", .list []),
                          ("set_voltage", .list [])]⟩,
                   ["measure_resistance", "set_current", "set_voltage"]⟩ := by
  constructor
  · exact ((C5_required_methods_validated _ _).2 (by decide)).trans (by decide)
  · exact ((C5_required_methods_validated _ _).1 (by decide)).trans (by decide)

/-- C10 (confirmed): A specification file that exists but parses to a null
document (an empty YAML file) loads as None; construction then applies the
membership test for the methods key to that None inside
`_discover_yaml_methods` and fails with a TypeError — an unstructured
fault — instead of producing an instrument with no declarative methods. -/
theorem C10_null_spec_type_error (required : List String) (c f : String) :
    YamlUtils.load_yaml_spec (fun _ => some none) c f = Except.ok none
    ∧ ScpiInstrumentPy.scpiInit none required
      = Except.error (.typeError "argument of type NoneType is not iterable")
    ∧ ScpiInstrumentPy.scpiConstruct (fun _ => some none) c f required
      = Except.error (.typeError "argument of type NoneType is not iterable") :=
  ⟨rfl, rfl, rfl⟩

/-! ## Specification loader claim -/

/-- C9 (corrected): `load_yaml_spec` checks exactly two candidate paths, and
in this order: the file reference joined to the calling module's directory
first, then the file reference exactly as given; the first existing
candidate is parsed, and when neither exists the loader raises
FileNotFoundError rather than returning an empty specification. Contrary to
the claim, the explicit path is not tried first, and no package-level shared
specification directory is ever consulted. -/
theorem C9_loader_search_order (fs : String → Option (Option ScpiInstrumentPy.SpecDoc))
    (c f : String) :
    YamlUtils.searchPaths c f = [YamlUtils.joinPath c f, f]
    ∧ (∀ d, fs (YamlUtils.joinPath c f) = some d →
         YamlUtils.load_yaml_spec fs c f = Except.ok d)
    ∧ (fs (YamlUtils.joinPath c f) = none → ∀ d, fs f = some d →
         YamlUtils.load_yaml_spec fs c f = Except.ok d)
    ∧ (fs (YamlUtils.joinPath c f) = none → fs f = none →
         YamlUtils.load_yaml_spec fs c f = Except.error .fileNotFound) := by
  refine ⟨rfl, ?_, ?_, ?_⟩
  · intro d h
    simp [YamlUtils.load_yaml_spec, YamlUtils.searchPaths, YamlUtils.firstExisting, h]
  · intro h1 d h2
    simp [YamlUtils.load_yaml_spec, YamlUtils.searchPaths, YamlUtils.firstExisting, h1, h2]
  · intro h1 h2
    simp [YamlUtils.load_yaml_spec, YamlUtils.searchPaths, YamlUtils.firstExisting, h1, h2]

/-- C9 witness: with no candidate existing, the loader raises
FileNotFoundError. -/
theorem C9_loader_search_order_witness :
    YamlUtils.load_yaml_spec (fun _ => none) "a" "b" = Except.error .fileNotFound :=
  (C9_loader_search_order (fun _ => none) "a" "b").2.2.2 rfl rfl

/-- A document distinct from `docB9`, found at the caller-relative path. -/
def docA9 : ScpiInstrumentPy.SpecDoc := ⟨some []⟩

/-- A document distinct from `docA9`, found at the explicit path. -/
def docB9 : ScpiInstrumentPy.SpecDoc := ⟨none⟩

/-- A filesystem in which both the caller-relative candidate and the
explicit path exist, with different content. -/
def fsC9 : String → Option (Option ScpiInstrumentPy.SpecDoc) := fun p =>
  if p = "caller/spec.yaml" then some (some docA9)
  else if p = "spec.yaml" then some (some docB9)
  else none

/-- C9 counterexample: when the explicit path and the caller-relative path
both exist with different content, the code returns the caller-relative
document, while the search order the claim states (explicit path first)
would return the other one. -/
theorem C9_loader_search_order_counterexample :
    YamlUtils.load_yaml_spec fsC9 "caller" "spec.yaml" = Except.ok (some docA9)
    ∧ YamlUtils.load_yaml_spec_specOrder fsC9 "caller" "shared" "spec.yaml"
      = Except.ok (some docB9)
    ∧ YamlUtils.load_yaml_spec fsC9 "caller" "spec.yaml"
      ≠ YamlUtils.load_yaml_spec_specOrder fsC9 "caller" "shared" "spec.yaml" := by
  refine ⟨rfl, rfl, by decide⟩

/-! ## Connection-state claim -/

/-- C7 (corrected): On a constructed-but-unconnected instrument, the
transport-level `VisaBackend.write`, `read` and `query` do fail fast,
raising the not-connected RuntimeError. The instrument-level
`KlabInstrument.write`, `read` and `query`, however, wrap the backend call
in try/except, log a warning and return None — the call silently returns a
null result instead of raising; and `ScpiInstrument.query` checks the
connection itself and likewise returns None. The claim's required behavior
holds only at the backend, not for the instrument methods it names. -/
theorem C7_disconnected_calls (b : KlabInstrumentPy.VisaBackend)
    (h : b.connected = false) (cmd : String)
    (attempt : Nat → Except String String) (retries : Nat) :
    (∃ m, b.write cmd = Except.error m)
    ∧ (∃ m, b.read = Except.error m)
    ∧ (∃ m, b.query cmd = Except.error m)
    ∧ KlabInstrumentPy.KlabInstrument.write b cmd = .returned none
    ∧ KlabInstrumentPy.KlabInstrument.read b = .returned none
    ∧ KlabInstrumentPy.KlabInstrument.query b cmd = .returned none
    ∧ ScpiInstrumentPy.ScpiInstrument.query b.connected attempt retries cmd
      = .returned none := by
  have hw : b.write cmd = Except.error "RuntimeError: VISA instrument not connected" := by
    simp [KlabInstrumentPy.VisaBackend.write, h]
  have hr : b.read = Except.error "RuntimeError: VISA instrument not connected" := by
    simp [KlabInstrumentPy.VisaBackend.read, h]
  have hq : b.query cmd = Except.error "RuntimeError: VISA instrument not connected" := by
    simp [KlabInstrumentPy.VisaBackend.query, h]
  refine ⟨⟨_, hw⟩, ⟨_, hr⟩, ⟨_, hq⟩, ?_, ?_, ?_, ?_⟩
  · simp [KlabInstrumentPy.KlabInstrument.write, hw]
  · simp [KlabInstrumentPy.KlabInstrument.read, hr]
  · simp [KlabInstrumentPy.KlabInstrument.query, hq]
  · simp [ScpiInstrumentPy.ScpiInstrument.query, h]

/-- C7 witness: a concrete disconnected backend. -/
theorem C7_disconnected_calls_witness :
    (∃ m, KlabInstrumentPy.VisaBackend.write ⟨false, fun _ => "", ""⟩ "*IDN?" = Except.error m)
    ∧ (∃ m, KlabInstrumentPy.VisaBackend.read ⟨false, fun _ => "", ""⟩ = Except.error m)
    ∧ (∃ m, KlabInstrumentPy.VisaBackend.query ⟨false, fun _ => "", ""⟩ "*IDN?" = Except.error m)
    ∧ KlabInstrumentPy.KlabInstrument.write ⟨false, fun _ => "", ""⟩ "*IDN?" = .returned none
    ∧ KlabInstrumentPy.KlabInstrument.read ⟨false, fun _ => "", ""⟩ = .returned none
    ∧ KlabInstrumentPy.KlabInstrument.query ⟨false, fun _ => "", ""⟩ "*IDN?" = .returned none
    ∧ ScpiInstrumentPy.ScpiInstrument.query false (fun _ => Except.error "VisaIOError") 5 "*IDN?"
      = .returned none :=
  C7_disconnected_calls ⟨false, fun _ => "", ""⟩ rfl "*IDN?" (fun _ => Except.error "VisaIOError") 5

/-- C7 counterexample: on a disconnected instrument, `KlabInstrument.query`
and `ScpiInstrument.query` return None — they do not raise the
NotConnected-kind error the claim requires. -/
theorem C7_disconnected_calls_counterexample :
    KlabInstrumentPy.KlabInstrument.query ⟨false, fun _ => "", ""⟩ "*IDN?"
      = KlabInstrumentPy.CallOutcome.returned none
    ∧ ScpiInstrumentPy.ScpiInstrument.query false (fun _ => Except.error "e") 5 "*IDN?"
      = KlabInstrumentPy.CallOutcome.returned none :=
  ⟨rfl, rfl⟩

end Klab
